import Mathlib

/-!
Verification of the bankstatementparser repository: a shallow embedding of
the Pain.001 and CAMT.053 extraction logic from
`bankstatementparser/bank_statement_parsers.py` (classes `Pain001Parser`
and `Camt053Parser`) and `bankstatementparser/camt_parser.py` (class
`CamtParser`), together with theorems settling the specification claims.

The XML documents handed to the extractors are modelled as rose trees
(`Elem`), mirroring the lxml element trees the Python code walks.  The few
XPath shapes the code uses (`.//A/B`, `./A/B`, `@Ccy` attribute lookup,
`|` alternation) are modelled by dedicated navigation functions.  Python
exceptions are modelled by an error type `PyErr` and fallible code returns
`Except PyErr`.  Python text values (`str` or `None`) are `Option String`.
-/

/-- An XML element as seen through lxml: a tag, its attributes, its text
content (`None` for an element with no text, hence `Option String`), and
its child elements in document order. -/
inductive Elem where
  | mk : String → List (String × String) → Option String → List Elem → Elem

/-- The element's tag name. -/
def Elem.tag : Elem → String
  | .mk t _ _ _ => t

/-- The element's attribute list. -/
def Elem.attrs : Elem → List (String × String)
  | .mk _ a _ _ => a

/-- The element's text content (`none` models lxml's `None` text). -/
def Elem.text : Elem → Option String
  | .mk _ _ x _ => x

/-- The element's children in document order. -/
def Elem.children : Elem → List Elem
  | .mk _ _ _ cs => cs

/-- Children of `e` having tag `t`, in document order (one `./t` step). -/
def childrenNamed (e : Elem) (t : String) : List Elem :=
  e.children.filter (fun c => c.tag == t)

mutual

/-- All proper descendants of an element, in document order. -/
def elemDesc : Elem → List Elem
  | .mk _ _ _ cs => descList cs

/-- All elements of the list together with their proper descendants, in
document order. -/
def descList : List Elem → List Elem
  | [] => []
  | e :: es => e :: (elemDesc e ++ descList es)

end

/-- Iterated child steps: `chainChildren [a, b] es` performs `/a/b` from
each element of `es`. -/
def chainChildren : List String → List Elem → List Elem
  | [], es => es
  | t :: ts, es => chainChildren ts (es.flatMap (fun e => childrenNamed e t))

/-- The node set of the XPath `.//p₁/p₂/…` evaluated at `e`: descendants
of `e` with tag `p₁`, then child steps for the rest of the path. -/
def descPath (e : Elem) (p : List String) : List Elem :=
  match p with
  | [] => []
  | t :: ts => chainChildren ts ((descList e.children).filter (fun d => d.tag == t))

/-- The node set of the XPath `./p₁/p₂/…` evaluated at `e`. -/
def childPath (e : Elem) (p : List String) : List Elem :=
  chainChildren p [e]

/-- Values of attribute `name` over a node set, as for `xpath(…/@name)`. -/
def attrVals (es : List Elem) (name : String) : List String :=
  es.filterMap (fun e => (e.attrs.find? (fun kv => kv.1 == name)).map (fun kv => kv.2))

/-- Python exceptions raised by the extraction code: `FileParserError`
(the repository's custom error), `IndexError` (from `xs[0]` on an empty
xpath result), `TypeError` (from `float(None)` or joining `None` texts),
and `ValueError` (from `float` on a non-numeric string). -/
inductive PyErr where
  | fileParserError : String → PyErr
  | indexError : PyErr
  | typeError : PyErr
  | valueError : PyErr
deriving DecidableEq

/-- Models `xs[0]` on a Python list: `IndexError` when empty. -/
def listHead {α : Type} : List α → Except PyErr α
  | [] => .error .indexError
  | a :: _ => .ok a

/-- Models `xs[0].text` on an xpath node set: `IndexError` when the set is
empty, otherwise the first node's text. -/
def headText : List Elem → Except PyErr (Option String)
  | [] => .error .indexError
  | e :: _ => .ok e.text

/-- Models the guarded lookup `xs[0].text if xs else default`. -/
def textOrDefault (es : List Elem) (default : Option String) : Option String :=
  match es with
  | [] => default
  | e :: _ => e.text

/-- Numeric value of a list of decimal digit characters. -/
def decimalDigits (cs : List Char) : Nat :=
  cs.foldl (fun a c => 10 * a + (c.toNat - 48)) 0

/-- Value of an unsigned decimal literal (digits with an optional single
point); `none` when the characters do not form such a literal. -/
def pyFloatUnsigned (cs : List Char) : Option ℚ :=
  let intPart := cs.takeWhile Char.isDigit
  let rest := cs.dropWhile Char.isDigit
  match rest with
  | [] => if intPart.isEmpty then Option.none else some (decimalDigits intPart : ℚ)
  | '.' :: frac =>
      if frac.all Char.isDigit && !(intPart.isEmpty && frac.isEmpty) then
        some (mkRat (decimalDigits intPart * 10 ^ frac.length + decimalDigits frac) (10 ^ frac.length))
      else Option.none
  | _ => Option.none

/-- Models Python's `float` on an optionally signed plain decimal literal,
the fragment of `float`'s input language the repository's documents use;
`none` models `ValueError` (non-numeric text). -/
def pyFloatString (s : String) : Option ℚ :=
  match s.data with
  | '-' :: cs => (pyFloatUnsigned cs).map (fun q => -q)
  | '+' :: cs => pyFloatUnsigned cs
  | cs => pyFloatUnsigned cs

/-- Models `float(t)` applied to an element text: `TypeError` on `None`,
`ValueError` on non-numeric text. -/
def pyFloat : Option String → Except PyErr ℚ
  | Option.none => .error .typeError
  | some s =>
      match pyFloatString s with
      | Option.none => .error .valueError
      | some q => .ok q

/-- Models `sep.join(ts)` on a list of Python `str`-or-`None` values: a
`TypeError` as soon as any entry is `None`, the separator-joined string
otherwise. -/
def joinTexts (sep : String) (ts : List (Option String)) : Except PyErr String :=
  if ts.all Option.isSome then
    .ok (String.intercalate sep (ts.map (fun t => t.getD "")))
  else .error .typeError

/-- Python truthiness of an element text: `None` and the empty string are
falsy. -/
def truthyText : Option String → Bool
  | Option.none => false
  | some s => s != ""

/-- Sequential effectful map over a list, as a Python `for` loop that
appends one result per iteration and propagates the first exception. -/
def mapE {α β : Type} (f : α → Except PyErr β) : List α → Except PyErr (List β)
  | [] => .ok []
  | x :: xs => do
      let y ← f x
      let ys ← mapE f xs
      .ok (y :: ys)

/-- A Python value stored in a parsed-record dict: a string, `None`, or a
number. -/
inductive Val where
  | str : String → Val
  | null : Val
  | num : ℚ → Val
deriving DecidableEq

/-- Wrap an element text as a stored dict value. -/
def valOfText : Option String → Val
  | some s => .str s
  | Option.none => .null

/-- Lookup in a Python dict modelled as an ordered association list. -/
def pyGet (d : List (String × Val)) (k : String) : Option Val :=
  (d.find? (fun kv => kv.1 == k)).map (fun kv => kv.2)

/-- Models Python `d1.update(d2)`: values of keys already in `d1` are
replaced in place, new keys of `d2` are appended in order. -/
def dictUpdate (d1 d2 : List (String × Val)) : List (String × Val) :=
  d1.map (fun kv =>
    match d2.find? (fun kv2 => kv2.1 == kv.1) with
    | some kv2 => (kv.1, kv2.2)
    | Option.none => kv)
  ++ d2.filter (fun kv2 => !(d1.any (fun kv => kv.1 == kv2.1)))

/-- Models `Pain001Parser._parse_payment` (bank_statement_parsers.py):
field lookups in source order, the space-joined remittance and address
texts, and the final `float` conversion of the amount text. -/
def Pain001Parser.parse_payment (payment : Elem) : Except PyErr (List (String × Val)) := do
  let amount ← headText (descPath payment ["InstdAmt"])
  let currency ← listHead (attrVals (descPath payment ["InstdAmt"]) "Ccy")
  let name ← headText (descPath payment ["Cdtr", "Nm"])
  let account := textOrDefault
    (descPath payment ["CdtrAcct", "Id", "IBAN"] ++ descPath payment ["CdtrAcct", "Id", "Othr", "Id"])
    (some "")
  let country := textOrDefault (descPath payment ["Ctry"]) (some "")
  let reference ← joinTexts " " ((descPath payment ["RmtInf", "Ustrd"]).map Elem.text)
  let address ← joinTexts " " ((descPath payment ["AdrLine"]).map Elem.text)
  let amt ← pyFloat amount
  .ok [("Name", valOfText name), ("Amount", .num amt), ("Currency", .str currency),
       ("Reference", .str reference), ("CreditorAccount", valOfText account),
       ("Country", valOfText country), ("Address", .str address)]

/-- Models `Pain001Parser._parse_batch_header` (bank_statement_parsers.py). -/
def Pain001Parser.parse_batch_header (batch : Elem) : Except PyErr (List (String × Val)) := do
  let execution_date ← headText (descPath batch ["ReqdExctnDt"])
  let debtor_name ← headText (descPath batch ["Dbtr", "Nm"])
  let debtor_account := textOrDefault
    (descPath batch ["DbtrAcct", "Id", "IBAN"] ++ descPath batch ["DbtrAcct", "Id", "Othr", "Id"])
    (some "")
  .ok [("debtor_name", valOfText debtor_name), ("debtor_account", valOfText debtor_account),
       ("execution_date", valOfText execution_date)]

/-- Models `Pain001Parser._parse_batch`: each payment dict of the batch is
updated with the batch header dict. -/
def Pain001Parser.parse_batch (batch : Elem) : Except PyErr (List (List (String × Val))) := do
  let header ← Pain001Parser.parse_batch_header batch
  let pds ← mapE Pain001Parser.parse_payment (descPath batch ["CdtTrfTxInf"])
  .ok (pds.map (fun pd => dictUpdate pd header))

/-- The attributes `Pain001Parser.__init__` stores: batch count, flattened
payments, total payment count. -/
structure Pain001State where
  batches_count : Nat
  payments : List (List (String × Val))
  total_payments_count : Nat
deriving DecidableEq

/-- Models the extraction in `Pain001Parser.__init__` after the document
tree is built: collect the `PmtInf` batches, parse each, flatten. -/
def Pain001Parser.parse (tree : Elem) : Except PyErr Pain001State := do
  let batches := descPath tree ["PmtInf"]
  let pss ← mapE Pain001Parser.parse_batch batches
  .ok ⟨batches.length, pss.flatten, pss.flatten.length⟩

/-- The balance type code table `Camt053Parser.DEFINITIONS`
(bank_statement_parsers.py). -/
def Camt053Parser.DEFINITIONS : List (String × String) :=
  [("OPBD", "Opening booked balance"),
   ("CLBD", "Closing booked balance"),
   ("CLAV", "Closing available balance")]

/-- Models `definitions.get(code, 'Unknown code')` on a code that is a
Python `str` or `None`. -/
def defsGet (defs : List (String × String)) (code : Option String) : String :=
  match code with
  | Option.none => "Unknown code"
  | some c => ((defs.find? (fun kv => kv.1 == c)).map (fun kv => kv.2)).getD "Unknown code"

/-- One parsed balance value of `Camt053Parser._parse_statement_balances`:
the dict `{'Amount': …, 'Description': …}` stored under the balance code. -/
structure Camt053Parser.Balance where
  Amount : ℚ
  Description : String
deriving DecidableEq

/-- Models one iteration of the loop in
`Camt053Parser._parse_statement_balances`: code, description lookup,
amount parse, and the debit sign flip, returning the key/value pair that
the loop stores into the balances dict. -/
def Camt053Parser.parse_balance_entry (bal : Elem) :
    Except PyErr (Option String × Camt053Parser.Balance) := do
  let code ← headText (descPath bal ["Cd"])
  let desc := defsGet Camt053Parser.DEFINITIONS code
  let amt ← pyFloat (← headText (descPath bal ["Amt"]))
  let cdt_dbt ← headText (descPath bal ["CdtDbtInd"])
  let amount := if cdt_dbt == some "DBIT" then -amt else amt
  .ok (code, ⟨amount, desc⟩)

/-- Models Python dict assignment `d[k] = v` on an ordered association
list with unique keys: replace in place or append. -/
def dictInsert {α β : Type} [BEq α] (d : List (α × β)) (k : α) (v : β) : List (α × β) :=
  if d.any (fun kv => kv.1 == k) then
    d.map (fun kv => if kv.1 == k then (kv.1, v) else kv)
  else d ++ [(k, v)]

/-- The accumulation loop of `Camt053Parser._parse_statement_balances`. -/
def Camt053Parser.balances_loop :
    List Elem → List (Option String × Camt053Parser.Balance) →
    Except PyErr (List (Option String × Camt053Parser.Balance))
  | [], acc => .ok acc
  | bal :: rest, acc => do
      let kv ← Camt053Parser.parse_balance_entry bal
      Camt053Parser.balances_loop rest (dictInsert acc kv.1 kv.2)

/-- Models `Camt053Parser._parse_statement_balances`. -/
def Camt053Parser.parse_statement_balances (stmt : Elem) :
    Except PyErr (List (Option String × Camt053Parser.Balance)) :=
  Camt053Parser.balances_loop (descPath stmt ["Bal"]) []

/-- One transaction dict produced by `Camt053Parser._parse_transaction`;
the `StatementId` key is absent there (modelled as the `none` default) and
assigned afterwards in `_parse_transactions`. -/
structure Camt053Parser.Txn where
  DebtorName : Option String
  DebtorAccount : Option String
  CreditorName : Option String
  CreditorAccount : Option String
  Amount : ℚ
  Currency : String
  CreditDebit : Option String
  Reference : String
  ValueDate : Option String
  BookingDate : Option String
  StatementId : Option String := Option.none
deriving DecidableEq

/-- Models `Camt053Parser._parse_transaction` (bank_statement_parsers.py):
guarded optional lookups defaulting to the empty string, amount parse,
debit sign flip, space-joined remittance texts, and dates defaulting to
`None`. -/
def Camt053Parser.parse_transaction (entry : Elem) : Except PyErr Camt053Parser.Txn := do
  let debtor_name := textOrDefault (descPath entry ["Dbtr", "Nm"]) (some "")
  let debtor_acct := textOrDefault
    (descPath entry ["DbtrAcct", "Id", "IBAN"] ++ descPath entry ["DbtrAcct", "Id", "Othr", "Id"])
    (some "")
  let creditor_name := textOrDefault (descPath entry ["Cdtr", "Nm"]) (some "")
  let creditor_acct := textOrDefault
    (descPath entry ["CdtrAcct", "Id", "IBAN"] ++ descPath entry ["CdtrAcct", "Id", "Othr", "Id"])
    (some "")
  let amt ← pyFloat (← headText (childPath entry ["Amt"]))
  let currency ← listHead (attrVals (childPath entry ["Amt"]) "Ccy")
  let cdt_dbt ← headText (childPath entry ["CdtDbtInd"])
  let amount := if cdt_dbt == some "DBIT" then -amt else amt
  let reference ← joinTexts " " ((descPath entry ["RmtInf", "Ustrd"]).map Elem.text)
  let value_date := textOrDefault (childPath entry ["ValDt", "Dt"]) Option.none
  let booking_date := textOrDefault (childPath entry ["BookgDt", "Dt"]) Option.none
  .ok ⟨debtor_name, debtor_acct, creditor_name, creditor_acct, amount, currency,
       cdt_dbt, reference, value_date, booking_date, Option.none⟩

/-- Models the inner loop of `Camt053Parser._parse_transactions` for one
statement: parse each direct `Ntry` child and set its `StatementId` from
the statement's `Id`. -/
def Camt053Parser.parse_entries (stmt : Elem) : Except PyErr (List Camt053Parser.Txn) :=
  mapE (fun entry => do
      let txn ← Camt053Parser.parse_transaction entry
      let sid ← headText (childPath stmt ["Id"])
      .ok { txn with StatementId := sid })
    (childPath stmt ["Ntry"])

/-- Models `Camt053Parser._parse_transactions` over a statement list. -/
def Camt053Parser.parse_transactions (stmts : List Elem) : Except PyErr (List Camt053Parser.Txn) := do
  let tss ← mapE Camt053Parser.parse_entries stmts
  .ok tss.flatten

/-- The summary dict of `Camt053Parser._parse_statement_summary`. -/
structure Camt053Parser.Summary where
  NumTransactions : Nat
  TotalAmount : ℚ
deriving DecidableEq

/-- Models `Camt053Parser._parse_statement_summary`: re-derives the
statement's own transactions and sums their signed amounts. -/
def Camt053Parser.parse_statement_summary (stmt : Elem) : Except PyErr Camt053Parser.Summary := do
  let txns ← Camt053Parser.parse_transactions [stmt]
  .ok ⟨txns.length, (txns.map Camt053Parser.Txn.Amount).sum⟩

/-- The header dict of `Camt053Parser._parse_statement_header`. -/
structure Camt053Parser.StmtHeader where
  StatementId : Option String
  AccountId : Option String
  AccountName : Option String
deriving DecidableEq

/-- Models `Camt053Parser._parse_statement_header`. -/
def Camt053Parser.parse_statement_header (stmt : Elem) : Except PyErr Camt053Parser.StmtHeader := do
  let account_id ← headText
    (childPath stmt ["Acct", "Id", "IBAN"] ++ childPath stmt ["Acct", "Id", "Othr", "Id"])
  let name := textOrDefault (childPath stmt ["Acct", "Nm"]) (some "")
  let stmt_id ← headText (childPath stmt ["Id"])
  .ok ⟨stmt_id, account_id, name⟩

/-- One statement record `{**header, **balances, **summary}` of
`Camt053Parser._parse_statements`; header, balance-code and summary keys
are disjoint for the schema's codes, so the merge is modelled by a
structure holding the three parts. -/
structure Camt053Parser.StmtRec where
  StatementId : Option String
  AccountId : Option String
  AccountName : Option String
  balances : List (Option String × Camt053Parser.Balance)
  NumTransactions : Nat
  TotalAmount : ℚ
deriving DecidableEq

/-- Models the per-statement body of `Camt053Parser._parse_statements`. -/
def Camt053Parser.parse_statement (stmt : Elem) : Except PyErr Camt053Parser.StmtRec := do
  let header ← Camt053Parser.parse_statement_header stmt
  let balances ← Camt053Parser.parse_statement_balances stmt
  let summary ← Camt053Parser.parse_statement_summary stmt
  .ok ⟨header.StatementId, header.AccountId, header.AccountName, balances,
       summary.NumTransactions, summary.TotalAmount⟩

/-- Models `Camt053Parser._parse_statements`. -/
def Camt053Parser.parse_statements (stmts : List Elem) : Except PyErr (List Camt053Parser.StmtRec) :=
  mapE Camt053Parser.parse_statement stmts

/-- The attributes `Camt053Parser.__init__` stores. -/
structure Camt053State where
  statements : List Camt053Parser.StmtRec
  transactions : List Camt053Parser.Txn
deriving DecidableEq

/-- Models the extraction in `Camt053Parser.__init__` after the document
tree is built: locate the `Stmt` elements, fail with `FileParserError`
when there are none, else parse statements and transactions. -/
def Camt053Parser.parse (tree : Elem) : Except PyErr Camt053State := do
  let stmt_list := descPath tree ["Stmt"]
  if stmt_list.isEmpty then
    .error (.fileParserError "No statements found in the CAMT.053 file")
  else do
    let statements ← Camt053Parser.parse_statements stmt_list
    let transactions ← Camt053Parser.parse_transactions stmt_list
    .ok ⟨statements, transactions⟩

/-- The balance code table `self.definitions` of `CamtParser.__init__`
(camt_parser.py): the extended five-code variant. -/
def CamtParser.definitions : List (String × String) :=
  [("OPBD", "Opening Booked balance"),
   ("CLBD", "Closing Booked balance"),
   ("CLAV", "Closing Available balance"),
   ("PRCD", "Previously Closed Booked balance"),
   ("FWAV", "Forward Available balance")]

/-- Models `CamtParser._get_element_text`: the first matched element's
text, or the empty string when nothing matches. -/
def CamtParser.get_element_text (es : List Elem) : Option String :=
  match es with
  | [] => some ""
  | e :: _ => e.text

/-- Models `CamtParser._get_account_id`. -/
def CamtParser.get_account_id (stmt : Elem) : Option String :=
  match childPath stmt ["Acct", "Id", "IBAN"] ++ childPath stmt ["Acct", "Id", "Othr", "Id"] with
  | [] => some ""
  | e :: _ => e.text

/-- One balance dict of `CamtParser._parse_balance`; the `AccountId` key
is added afterwards by `get_account_balances`. -/
structure CamtParser.CBal where
  Amount : ℚ
  Currency : String
  Code : Option String
  Description : String
  DrCr : Option String
  Date : Option String
  AccountId : Option String := Option.none
deriving DecidableEq

/-- Models `CamtParser._parse_balance` (camt_parser.py). -/
def CamtParser.parse_balance (bal : Elem) : Except PyErr CamtParser.CBal := do
  let code ← headText (descPath bal ["Cd"])
  let description := defsGet CamtParser.definitions code
  let amt ← pyFloat (← headText (descPath bal ["Amt"]))
  let cdt_dbt ← headText (descPath bal ["CdtDbtInd"])
  let amount := if cdt_dbt == some "DBIT" then -amt else amt
  let currency ← listHead (attrVals (descPath bal ["Amt"]) "Ccy")
  let date ← headText (childPath bal ["Dt", "Dt"] ++ childPath bal ["Dt", "DtTm"])
  .ok ⟨amount, currency, code, description, cdt_dbt, date, Option.none⟩

/-- Models `CamtParser._get_balances_for_statement`. -/
def CamtParser.get_balances_for_statement (stmt : Elem) : Except PyErr (List CamtParser.CBal) :=
  mapE CamtParser.parse_balance (descPath stmt ["Bal"])

/-- Models `CamtParser.get_account_balances` on the parsed tree: balances
of every statement, each tagged with its statement's account id.  There is
no emptiness check: zero statements yield the empty record set. -/
def CamtParser.get_account_balances (tree : Elem) : Except PyErr (List CamtParser.CBal) := do
  let tss ← mapE (fun stmt => do
      let bal_list ← CamtParser.get_balances_for_statement stmt
      let account_id := CamtParser.get_account_id stmt
      .ok (bal_list.map (fun b => { b with AccountId := account_id })))
    (descPath tree ["Stmt"])
  .ok tss.flatten

/-- One transaction dict of `CamtParser._parse_transaction`; `AccountId`
is added afterwards by `get_transactions`. -/
structure CamtParser.CTxn where
  Amount : ℚ
  Currency : String
  DrCr : Option String
  Debtor : Option String
  Creditor : Option String
  Reference : String
  ValDt : Option String
  BookgDt : Option String
  AccountId : Option String := Option.none
deriving DecidableEq

/-- Models `CamtParser._parse_transaction` (camt_parser.py): `_get_element_text`
lookups for names and dates (empty string when absent), remittance texts
filtered by truthiness and joined with no separator, amount parse and
debit sign flip. -/
def CamtParser.parse_transaction (entry : Elem) : Except PyErr CamtParser.CTxn := do
  let debtor := CamtParser.get_element_text (descPath entry ["Dbtr", "Nm"])
  let creditor := CamtParser.get_element_text (descPath entry ["Cdtr", "Nm"])
  let reference := String.join
    ((((descPath entry ["Ustrd"]).map Elem.text).filter truthyText).map (fun t => t.getD ""))
  let amt ← pyFloat (← headText (childPath entry ["Amt"]))
  let currency ← listHead (attrVals (childPath entry ["Amt"]) "Ccy")
  let cdt_dbt ← headText (childPath entry ["CdtDbtInd"])
  let amount := if cdt_dbt == some "DBIT" then -amt else amt
  let value_date := CamtParser.get_element_text (childPath entry ["ValDt", "Dt"])
  let booking_date := CamtParser.get_element_text (childPath entry ["BookgDt", "Dt"])
  .ok ⟨amount, currency, cdt_dbt, debtor, creditor, reference, value_date, booking_date, Option.none⟩

/-- Models `CamtParser._get_transactions_for_statement`. -/
def CamtParser.get_transactions_for_statement (stmt : Elem) : Except PyErr (List CamtParser.CTxn) :=
  mapE CamtParser.parse_transaction (childPath stmt ["Ntry"])

/-- One statistics dict of `CamtParser._get_statement_stats`. -/
structure CamtParser.CStats where
  AccountId : Option String
  StatementCreated : Option String
  NumTransactions : Nat
  NetAmount : ℚ
deriving DecidableEq

/-- Models `CamtParser._get_statement_stats` for a single statement. -/
def CamtParser.parse_statement_stats (stmt : Elem) : Except PyErr CamtParser.CStats := do
  let account_id := CamtParser.get_account_id stmt
  let created := CamtParser.get_element_text (childPath stmt ["CreDtTm"])
  let transactions ← CamtParser.get_transactions_for_statement stmt
  let net := if transactions.length > 0 then (transactions.map CamtParser.CTxn.Amount).sum else 0
  .ok ⟨account_id, created, transactions.length, net⟩

/-- Models `CamtParser.get_statement_stats` over the whole tree. -/
def CamtParser.get_statement_stats (tree : Elem) : Except PyErr (List CamtParser.CStats) :=
  mapE CamtParser.parse_statement_stats (descPath tree ["Stmt"])

/-- A leaf element with a text value. -/
def leafE (tag v : String) : Elem := .mk tag [] (some v) []

/-- An `Amt` element with a `Ccy` attribute, as used in both schemas. -/
def amtE (v ccy : String) : Elem := .mk "Amt" [("Ccy", ccy)] (some v) []

/-- Test fixture: a `Bal` element with code OPBD, amount 40, indicator DBIT. -/
def balDbit : Elem :=
  .mk "Bal" [] Option.none
    [leafE "Cd" "OPBD", amtE "40" "EUR", leafE "CdtDbtInd" "DBIT",
     .mk "Dt" [] Option.none [leafE "Dt" "2023-01-31"]]

/-- Test fixture: a `Bal` element with an unrecognized code and indicator CRDT. -/
def balUnknown : Elem :=
  .mk "Bal" [] Option.none
    [leafE "Cd" "XXXX", amtE "25" "EUR", leafE "CdtDbtInd" "CRDT",
     .mk "Dt" [] Option.none [leafE "Dt" "2023-01-31"]]

/-- Test fixture: a credit statement entry of amount 100 with a value date. -/
def ntryCrdt : Elem :=
  .mk "Ntry" [] Option.none
    [amtE "100" "EUR", leafE "CdtDbtInd" "CRDT",
     .mk "ValDt" [] Option.none [leafE "Dt" "2023-01-01"]]

/-- Test fixture: a debit statement entry of amount 40 with no dates. -/
def ntryDbit : Elem :=
  .mk "Ntry" [] Option.none [amtE "40" "EUR", leafE "CdtDbtInd" "DBIT"]

/-- Test fixture: a statement entry whose indicator is lowercase `dbit`. -/
def ntryLower : Elem :=
  .mk "Ntry" [] Option.none [amtE "75" "EUR", leafE "CdtDbtInd" "dbit"]

/-- Test fixture: a `Stmt` element with the given id, IBAN and entries. -/
def stmtE (sid acct : String) (entries : List Elem) : Elem :=
  .mk "Stmt" [] Option.none
    ([leafE "Id" sid,
      .mk "Acct" [] Option.none [.mk "Id" [] Option.none [leafE "IBAN" acct]]] ++ entries)

/-- Test fixture: a document with no `Stmt` element at all. -/
def noStmtDoc : Elem :=
  .mk "Document" [] Option.none [.mk "GrpHdr" [] Option.none [leafE "MsgId" "M1"]]

/-- Test fixture: a CAMT.053 document whose two statements share the id S1. -/
def dupIdDoc : Elem :=
  .mk "Document" [] Option.none
    [stmtE "S1" "A1" [ntryCrdt], stmtE "S1" "A2" [ntryDbit]]

/-- Test fixture: a CAMT.053 document with two statements of distinct ids. -/
def twoIdDoc : Elem :=
  .mk "Document" [] Option.none
    [stmtE "S1" "A1" [ntryCrdt], stmtE "S2" "A2" [ntryDbit]]

/-- Test fixture: a Pain.001 transaction element with the given amount,
currency and creditor name, plus extra children. -/
def payE (amt ccy nm : String) (extra : List Elem) : Elem :=
  .mk "CdtTrfTxInf" [] Option.none
    ([.mk "InstdAmt" [("Ccy", ccy)] (some amt) [],
      .mk "Cdtr" [] Option.none [leafE "Nm" nm]] ++ extra)

/-- Test fixture: a Pain.001 batch element with a complete header and the
given transactions. -/
def batchE (pays : List Elem) : Elem :=
  .mk "PmtInf" [] Option.none
    ([leafE "ReqdExctnDt" "2023-03-03",
      .mk "Dbtr" [] Option.none [leafE "Nm" "ACME"],
      .mk "DbtrAcct" [] Option.none [.mk "Id" [] Option.none [leafE "IBAN" "DE99"]]] ++ pays)

/-- Test fixture: a Pain.001 document with one batch of two payments. -/
def painDoc : Elem :=
  .mk "Document" [] Option.none [batchE [payE "150" "EUR" "Alice" [], payE "200" "EUR" "Bob" []]]

/-- Test fixture: a Pain.001 transaction whose `InstdAmt` text is not numeric. -/
def badAmtDoc : Elem :=
  .mk "Document" [] Option.none [batchE [payE "12x" "EUR" "Zed" []]]

/-- Test fixture: a Pain.001 transaction containing an empty `Ustrd`
element (text `None` in lxml). -/
def emptyUstrdPay : Elem :=
  payE "150" "EUR" "Eve" [.mk "RmtInf" [] Option.none [.mk "Ustrd" [] Option.none []]]

deriving instance DecidableEq for Except

/-- Inversion principle for a successful `Except` bind. -/
theorem except_bind_ok {α β : Type} {m : Except PyErr α} {f : α → Except PyErr β} {b : β} :
    (m >>= f) = .ok b ↔ ∃ a, m = .ok a ∧ f a = .ok b := by
  cases m with
  | error e => simp [Bind.bind, Except.bind]
  | ok a => simp [Bind.bind, Except.bind]

/-- A successful `mapE` relates input and output pointwise. -/
theorem mapE_ok_forall2 {α β : Type} {f : α → Except PyErr β} :
    ∀ {l : List α} {ys : List β}, mapE f l = .ok ys →
      List.Forall₂ (fun x y => f x = .ok y) l ys := by
  intro l
  induction l with
  | nil =>
      intro ys h
      simp [mapE] at h
      simp [← h]
  | cons x xs ih =>
      intro ys h
      rw [mapE] at h
      rw [except_bind_ok] at h
      obtain ⟨y, hy, h⟩ := h
      rw [except_bind_ok] at h
      obtain ⟨ys', hys, h⟩ := h
      simp only [Except.ok.injEq] at h
      subst h
      exact List.Forall₂.cons hy (ih hys)

/-- A successful `mapE` preserves the list length. -/
theorem mapE_ok_length {α β : Type} {f : α → Except PyErr β} {l : List α} {ys : List β}
    (h : mapE f l = .ok ys) : ys.length = l.length :=
  (mapE_ok_forall2 h).length_eq.symm

/-- When `mapE` succeeds, each input element was mapped successfully. -/
theorem mapE_ok_of_mem {α β : Type} {f : α → Except PyErr β} :
    ∀ {l : List α} {ys : List β}, mapE f l = .ok ys → ∀ {x : α}, x ∈ l → ∃ y, f x = .ok y := by
  intro l
  induction l with
  | nil => intro ys _ x hx; cases hx
  | cons z zs ih =>
      intro ys h x hx
      rw [mapE, except_bind_ok] at h
      obtain ⟨y, hy, h⟩ := h
      rw [except_bind_ok] at h
      obtain ⟨ys', hys, _⟩ := h
      cases hx with
      | head => exact ⟨y, hy⟩
      | tail _ hx => exact ih hys hx

/-- Right-to-left membership along a `Forall₂` relation. -/
theorem forall2_mem_right {α β : Type} {R : α → β → Prop} :
    ∀ {xs : List α} {ys : List β}, List.Forall₂ R xs ys → ∀ {y : β}, y ∈ ys →
      ∃ x ∈ xs, R x y := by
  intro xs ys h
  induction h with
  | nil => intro y hy; cases hy
  | cons hr _ ih =>
      intro y hy
      cases hy with
      | head => exact ⟨_, List.mem_cons_self .., hr⟩
      | tail _ hy =>
          obtain ⟨x, hx, hxy⟩ := ih hy
          exact ⟨x, List.mem_cons_of_mem _ hx, hxy⟩

/-- Pair two `Forall₂` relations sharing the same left list. -/
theorem forall2_pair {α β γ : Type} {R : α → β → Prop} {S : α → γ → Prop} :
    ∀ {xs : List α} {ys : List β} {zs : List γ}, List.Forall₂ R xs ys →
      List.Forall₂ S xs zs → List.Forall₂ (fun y z => ∃ x, R x y ∧ S x z) ys zs := by
  intro xs
  induction xs with
  | nil =>
      intro ys zs h1 h2
      cases h1; cases h2; exact List.Forall₂.nil
  | cons x xs ih =>
      intro ys zs h1 h2
      cases h1 with
      | cons hr h1' =>
          cases h2 with
          | cons hs h2' => exact List.Forall₂.cons ⟨x, hr, hs⟩ (ih h1' h2')

/-- A single child step of `childPath` is `childrenNamed`. -/
theorem childPath_singleton (e : Elem) (t : String) : childPath e [t] = childrenNamed e t := by
  simp [childPath, chainChildren]

/-- Reduction of a successful `Except` bind. -/
theorem ok_bind {α β : Type} (a : α) (f : α → Except PyErr β) :
    (Except.ok a >>= f : Except PyErr β) = f a := rfl

/-- Inversion of a successful `Camt053Parser.parse_balance_entry`. -/
theorem Camt053Parser.parse_balance_entry_ok {bal : Elem} {code : Option String}
    {b : Camt053Parser.Balance}
    (h : Camt053Parser.parse_balance_entry bal = .ok (code, b)) :
    headText (descPath bal ["Cd"]) = .ok code ∧
    ∃ a q cd, headText (descPath bal ["Amt"]) = .ok a ∧ pyFloat a = .ok q ∧
      headText (descPath bal ["CdtDbtInd"]) = .ok cd ∧
      b = ⟨if cd == some "DBIT" then -q else q, defsGet Camt053Parser.DEFINITIONS code⟩ := by
  rw [Camt053Parser.parse_balance_entry] at h
  simp only [except_bind_ok, Except.ok.injEq, Prod.mk.injEq] at h
  obtain ⟨c, hc, a, ha, q, hq, cd, hcd, hcode, hb⟩ := h
  subst hcode
  exact ⟨hc, a, q, cd, ha, hq, hcd, hb.symm⟩

/-- Inversion of a successful `Camt053Parser.parse_transaction`. -/
theorem Camt053Parser.parse_transaction_ok {entry : Elem} {t : Camt053Parser.Txn}
    (h : Camt053Parser.parse_transaction entry = .ok t) :
    ∃ a q ccy cd ref, headText (childPath entry ["Amt"]) = .ok a ∧ pyFloat a = .ok q ∧
      listHead (attrVals (childPath entry ["Amt"]) "Ccy") = .ok ccy ∧
      headText (childPath entry ["CdtDbtInd"]) = .ok cd ∧
      joinTexts " " ((descPath entry ["RmtInf", "Ustrd"]).map Elem.text) = .ok ref ∧
      t = ⟨textOrDefault (descPath entry ["Dbtr", "Nm"]) (some ""),
        textOrDefault (descPath entry ["DbtrAcct", "Id", "IBAN"]
          ++ descPath entry ["DbtrAcct", "Id", "Othr", "Id"]) (some ""),
        textOrDefault (descPath entry ["Cdtr", "Nm"]) (some ""),
        textOrDefault (descPath entry ["CdtrAcct", "Id", "IBAN"]
          ++ descPath entry ["CdtrAcct", "Id", "Othr", "Id"]) (some ""),
        if cd == some "DBIT" then -q else q, ccy, cd, ref,
        textOrDefault (childPath entry ["ValDt", "Dt"]) Option.none,
        textOrDefault (childPath entry ["BookgDt", "Dt"]) Option.none, Option.none⟩ := by
  rw [Camt053Parser.parse_transaction] at h
  simp only [except_bind_ok, Except.ok.injEq] at h
  obtain ⟨a, ha, q, hq, ccy, hccy, cd, hcd, ref, href, ht⟩ := h
  exact ⟨a, q, ccy, cd, ref, ha, hq, hccy, hcd, href, ht.symm⟩

/-- Totality of `Camt053Parser.parse_transaction` once the required
lookups succeed: optional fields never make it fail. -/
theorem Camt053Parser.parse_transaction_total {entry : Elem} {a : Option String} {q : ℚ}
    {ccy : String} {cd : Option String} {ref : String}
    (ha : headText (childPath entry ["Amt"]) = .ok a) (hq : pyFloat a = .ok q)
    (hccy : listHead (attrVals (childPath entry ["Amt"]) "Ccy") = .ok ccy)
    (hcd : headText (childPath entry ["CdtDbtInd"]) = .ok cd)
    (href : joinTexts " " ((descPath entry ["RmtInf", "Ustrd"]).map Elem.text) = .ok ref) :
    Camt053Parser.parse_transaction entry =
      .ok ⟨textOrDefault (descPath entry ["Dbtr", "Nm"]) (some ""),
        textOrDefault (descPath entry ["DbtrAcct", "Id", "IBAN"]
          ++ descPath entry ["DbtrAcct", "Id", "Othr", "Id"]) (some ""),
        textOrDefault (descPath entry ["Cdtr", "Nm"]) (some ""),
        textOrDefault (descPath entry ["CdtrAcct", "Id", "IBAN"]
          ++ descPath entry ["CdtrAcct", "Id", "Othr", "Id"]) (some ""),
        if cd == some "DBIT" then -q else q, ccy, cd, ref,
        textOrDefault (childPath entry ["ValDt", "Dt"]) Option.none,
        textOrDefault (childPath entry ["BookgDt", "Dt"]) Option.none, Option.none⟩ := by
  rw [Camt053Parser.parse_transaction]
  simp only [ha, hq, hccy, hcd, href, ok_bind]

/-- Inversion of a successful `CamtParser.parse_balance`. -/
theorem CamtParser.parse_balance_ok {bal : Elem} {b : CamtParser.CBal}
    (h : CamtParser.parse_balance bal = .ok b) :
    ∃ code a q cd ccy dt, headText (descPath bal ["Cd"]) = .ok code ∧
      headText (descPath bal ["Amt"]) = .ok a ∧ pyFloat a = .ok q ∧
      headText (descPath bal ["CdtDbtInd"]) = .ok cd ∧
      listHead (attrVals (descPath bal ["Amt"]) "Ccy") = .ok ccy ∧
      headText (childPath bal ["Dt", "Dt"] ++ childPath bal ["Dt", "DtTm"]) = .ok dt ∧
      b = ⟨if cd == some "DBIT" then -q else q, ccy, code,
        defsGet CamtParser.definitions code, cd, dt, Option.none⟩ := by
  rw [CamtParser.parse_balance] at h
  simp only [except_bind_ok, Except.ok.injEq] at h
  obtain ⟨code, hcode, a, ha, q, hq, cd, hcd, ccy, hccy, dt, hdt, hb⟩ := h
  exact ⟨code, a, q, cd, ccy, dt, hcode, ha, hq, hcd, hccy, hdt, hb.symm⟩

/-- Inversion of a successful `CamtParser.parse_transaction`. -/
theorem CamtParser.camt_transaction_ok {entry : Elem} {t : CamtParser.CTxn}
    (h : CamtParser.parse_transaction entry = .ok t) :
    ∃ a q ccy cd, headText (childPath entry ["Amt"]) = .ok a ∧ pyFloat a = .ok q ∧
      listHead (attrVals (childPath entry ["Amt"]) "Ccy") = .ok ccy ∧
      headText (childPath entry ["CdtDbtInd"]) = .ok cd ∧
      t = ⟨if cd == some "DBIT" then -q else q, ccy, cd,
        CamtParser.get_element_text (descPath entry ["Dbtr", "Nm"]),
        CamtParser.get_element_text (descPath entry ["Cdtr", "Nm"]),
        String.join ((((descPath entry ["Ustrd"]).map Elem.text).filter truthyText).map
          (fun x => x.getD "")),
        CamtParser.get_element_text (childPath entry ["ValDt", "Dt"]),
        CamtParser.get_element_text (childPath entry ["BookgDt", "Dt"]), Option.none⟩ := by
  rw [CamtParser.parse_transaction] at h
  simp only [except_bind_ok, Except.ok.injEq] at h
  obtain ⟨a, ha, q, hq, ccy, hccy, cd, hcd, ht⟩ := h
  exact ⟨a, q, ccy, cd, ha, hq, hccy, hcd, ht.symm⟩

/-- Totality of `CamtParser.parse_transaction` once the required lookups
succeed: optional fields never make it fail. -/
theorem CamtParser.camt_transaction_total {entry : Elem} {a : Option String} {q : ℚ}
    {ccy : String} {cd : Option String}
    (ha : headText (childPath entry ["Amt"]) = .ok a) (hq : pyFloat a = .ok q)
    (hccy : listHead (attrVals (childPath entry ["Amt"]) "Ccy") = .ok ccy)
    (hcd : headText (childPath entry ["CdtDbtInd"]) = .ok cd) :
    CamtParser.parse_transaction entry =
      .ok ⟨if cd == some "DBIT" then -q else q, ccy, cd,
        CamtParser.get_element_text (descPath entry ["Dbtr", "Nm"]),
        CamtParser.get_element_text (descPath entry ["Cdtr", "Nm"]),
        String.join ((((descPath entry ["Ustrd"]).map Elem.text).filter truthyText).map
          (fun x => x.getD "")),
        CamtParser.get_element_text (childPath entry ["ValDt", "Dt"]),
        CamtParser.get_element_text (childPath entry ["BookgDt", "Dt"]), Option.none⟩ := by
  rw [CamtParser.parse_transaction]
  simp only [ha, hq, hccy, hcd, ok_bind]

/-- Inversion of a successful `Pain001Parser.parse_payment`. -/
theorem Pain001Parser.parse_payment_ok {payment : Elem} {pd : List (String × Val)}
    (h : Pain001Parser.parse_payment payment = .ok pd) :
    ∃ a ccy nm ref addr q, headText (descPath payment ["InstdAmt"]) = .ok a ∧
      listHead (attrVals (descPath payment ["InstdAmt"]) "Ccy") = .ok ccy ∧
      headText (descPath payment ["Cdtr", "Nm"]) = .ok nm ∧
      joinTexts " " ((descPath payment ["RmtInf", "Ustrd"]).map Elem.text) = .ok ref ∧
      joinTexts " " ((descPath payment ["AdrLine"]).map Elem.text) = .ok addr ∧
      pyFloat a = .ok q ∧
      pd = [("Name", valOfText nm), ("Amount", .num q), ("Currency", .str ccy),
        ("Reference", .str ref),
        ("CreditorAccount", valOfText (textOrDefault
          (descPath payment ["CdtrAcct", "Id", "IBAN"]
            ++ descPath payment ["CdtrAcct", "Id", "Othr", "Id"]) (some ""))),
        ("Country", valOfText (textOrDefault (descPath payment ["Ctry"]) (some ""))),
        ("Address", .str addr)] := by
  rw [Pain001Parser.parse_payment] at h
  simp only [except_bind_ok, Except.ok.injEq] at h
  obtain ⟨a, ha, ccy, hccy, nm, hnm, ref, href, addr, haddr, q, hq, hd⟩ := h
  exact ⟨a, ccy, nm, ref, addr, q, ha, hccy, hnm, href, haddr, hq, hd.symm⟩

/-- Inversion of a successful `Pain001Parser.parse_batch_header`. -/
theorem Pain001Parser.parse_batch_header_ok {batch : Elem} {hdr : List (String × Val)}
    (h : Pain001Parser.parse_batch_header batch = .ok hdr) :
    ∃ ed dn, headText (descPath batch ["ReqdExctnDt"]) = .ok ed ∧
      headText (descPath batch ["Dbtr", "Nm"]) = .ok dn ∧
      hdr = [("debtor_name", valOfText dn),
        ("debtor_account", valOfText (textOrDefault
          (descPath batch ["DbtrAcct", "Id", "IBAN"]
            ++ descPath batch ["DbtrAcct", "Id", "Othr", "Id"]) (some ""))),
        ("execution_date", valOfText ed)] := by
  rw [Pain001Parser.parse_batch_header] at h
  simp only [except_bind_ok, Except.ok.injEq] at h
  obtain ⟨ed, hed, dn, hdn, hd⟩ := h
  exact ⟨ed, dn, hed, hdn, hd.symm⟩

/-- Inversion of a successful `Camt053Parser.parse_statement_header`. -/
theorem Camt053Parser.parse_statement_header_ok {stmt : Elem} {hd : Camt053Parser.StmtHeader}
    (h : Camt053Parser.parse_statement_header stmt = .ok hd) :
    ∃ aid sid, headText (childPath stmt ["Acct", "Id", "IBAN"]
        ++ childPath stmt ["Acct", "Id", "Othr", "Id"]) = .ok aid ∧
      headText (childPath stmt ["Id"]) = .ok sid ∧
      hd = ⟨sid, aid, textOrDefault (childPath stmt ["Acct", "Nm"]) (some "")⟩ := by
  rw [Camt053Parser.parse_statement_header] at h
  simp only [except_bind_ok, Except.ok.injEq] at h
  obtain ⟨aid, haid, sid, hsid, hd'⟩ := h
  exact ⟨aid, sid, haid, hsid, hd'.symm⟩

/-- Case analysis of the debit sign flip `amount = -amount if ind == 'DBIT'`. -/
theorem sign_flip_cases (cd : Option String) (q : ℚ) :
    (cd = some "DBIT" → (if cd == some "DBIT" then -q else q) = -q ∧
      (0 ≤ q → (if cd == some "DBIT" then -q else q) ≤ 0)) ∧
    (cd ≠ some "DBIT" → (if cd == some "DBIT" then -q else q) = q ∧
      (0 ≤ q → 0 ≤ (if cd == some "DBIT" then -q else q))) := by
  constructor
  · intro h
    subst h
    rw [if_pos (by simp)]
    exact ⟨rfl, fun hq => neg_nonpos.mpr hq⟩
  · intro h
    rw [if_neg (by simpa using h)]
    exact ⟨rfl, fun hq => hq⟩

/-- C1: sign-convention invariant — in every Balance and every Transaction
produced by the CAMT.053 extraction (both the `Camt053Parser` and the
`CamtParser` variant), a `DBIT` credit/debit indicator makes the stored
amount the negation of the raw parsed magnitude (so it is `≤ 0` when the
magnitude is `≥ 0`), and any other indicator stores the raw magnitude
unchanged (so it is `≥ 0` when the magnitude is `≥ 0`). -/
theorem signConventionC1 :
    (∀ bal code b a q cd,
        Camt053Parser.parse_balance_entry bal = .ok (code, b) →
        headText (descPath bal ["Amt"]) = .ok a → pyFloat a = .ok q →
        headText (descPath bal ["CdtDbtInd"]) = .ok cd →
        (cd = some "DBIT" → b.Amount = -q ∧ (0 ≤ q → b.Amount ≤ 0)) ∧
        (cd ≠ some "DBIT" → b.Amount = q ∧ (0 ≤ q → 0 ≤ b.Amount))) ∧
    (∀ entry t a q,
        Camt053Parser.parse_transaction entry = .ok t →
        headText (childPath entry ["Amt"]) = .ok a → pyFloat a = .ok q →
        (t.CreditDebit = some "DBIT" → t.Amount = -q ∧ (0 ≤ q → t.Amount ≤ 0)) ∧
        (t.CreditDebit ≠ some "DBIT" → t.Amount = q ∧ (0 ≤ q → 0 ≤ t.Amount))) ∧
    (∀ bal b a q,
        CamtParser.parse_balance bal = .ok b →
        headText (descPath bal ["Amt"]) = .ok a → pyFloat a = .ok q →
        (b.DrCr = some "DBIT" → b.Amount = -q ∧ (0 ≤ q → b.Amount ≤ 0)) ∧
        (b.DrCr ≠ some "DBIT" → b.Amount = q ∧ (0 ≤ q → 0 ≤ b.Amount))) ∧
    (∀ entry t a q,
        CamtParser.parse_transaction entry = .ok t →
        headText (childPath entry ["Amt"]) = .ok a → pyFloat a = .ok q →
        (t.DrCr = some "DBIT" → t.Amount = -q ∧ (0 ≤ q → t.Amount ≤ 0)) ∧
        (t.DrCr ≠ some "DBIT" → t.Amount = q ∧ (0 ≤ q → 0 ≤ t.Amount))) := by
  refine ⟨?_, ?_, ?_, ?_⟩
  · intro bal code b a q cd hok ha hq hcd
    obtain ⟨-, a', q', cd', ha', hq', hcd', hb⟩ := Camt053Parser.parse_balance_entry_ok hok
    rw [ha] at ha'; simp only [Except.ok.injEq] at ha'; subst ha'
    rw [hq] at hq'; simp only [Except.ok.injEq] at hq'; subst hq'
    rw [hcd] at hcd'; simp only [Except.ok.injEq] at hcd'; subst hcd'
    rw [hb]
    exact sign_flip_cases cd q
  · intro entry t a q hok ha hq
    obtain ⟨a', q', ccy, cd, ref, ha', hq', -, -, -, ht⟩ := Camt053Parser.parse_transaction_ok hok
    rw [ha] at ha'; simp only [Except.ok.injEq] at ha'; subst ha'
    rw [hq] at hq'; simp only [Except.ok.injEq] at hq'; subst hq'
    rw [ht]
    exact sign_flip_cases cd q
  · intro bal b a q hok ha hq
    obtain ⟨code, a', q', cd, ccy, dt, -, ha', hq', -, -, -, hb⟩ := CamtParser.parse_balance_ok hok
    rw [ha] at ha'; simp only [Except.ok.injEq] at ha'; subst ha'
    rw [hq] at hq'; simp only [Except.ok.injEq] at hq'; subst hq'
    rw [hb]
    exact sign_flip_cases cd q
  · intro entry t a q hok ha hq
    obtain ⟨a', q', ccy, cd, ha', hq', -, -, ht⟩ := CamtParser.camt_transaction_ok hok
    rw [ha] at ha'; simp only [Except.ok.injEq] at ha'; subst ha'
    rw [hq] at hq'; simp only [Except.ok.injEq] at hq'; subst hq'
    rw [ht]
    exact sign_flip_cases cd q

theorem signConventionC1_witness :
    ((Camt053Parser.Balance.mk (-40) "Opening booked balance").Amount = -(40 : ℚ) ∧
      ((0:ℚ) ≤ 40 → (Camt053Parser.Balance.mk (-40) "Opening booked balance").Amount ≤ 0)) ∧
    ((Camt053Parser.Txn.mk (some "") (some "") (some "") (some "") 100 "EUR" (some "CRDT") ""
        (some "2023-01-01") Option.none Option.none).Amount = (100 : ℚ) ∧
      ((0:ℚ) ≤ 100 → (0:ℚ) ≤ (Camt053Parser.Txn.mk (some "") (some "") (some "") (some "") 100
        "EUR" (some "CRDT") "" (some "2023-01-01") Option.none Option.none).Amount)) ∧
    ((CamtParser.CBal.mk (-40) "EUR" (some "OPBD") "Opening Booked balance" (some "DBIT")
        (some "2023-01-31") Option.none).Amount = -(40 : ℚ)) ∧
    ((CamtParser.CTxn.mk (-40) "EUR" (some "DBIT") (some "") (some "") "" (some "") (some "")
        Option.none).Amount = -(40 : ℚ)) := by
  refine ⟨?_, ?_, ?_, ?_⟩
  · exact (signConventionC1.1 balDbit (some "OPBD") ⟨-40, "Opening booked balance"⟩
      (some "40") 40 (some "DBIT") (by decide) (by decide) (by decide) (by decide)).1 rfl
  · exact (signConventionC1.2.1 ntryCrdt
      ⟨some "", some "", some "", some "", 100, "EUR", some "CRDT", "",
        some "2023-01-01", Option.none, Option.none⟩
      (some "100") 100 (by decide) (by decide) (by decide)).2 (by decide)
  · exact ((signConventionC1.2.2.1 balDbit
      ⟨-40, "EUR", some "OPBD", "Opening Booked balance", some "DBIT",
        some "2023-01-31", Option.none⟩
      (some "40") 40 (by decide) (by decide) (by decide)).1 rfl).1
  · exact ((signConventionC1.2.2.2 ntryDbit
      ⟨-40, "EUR", some "DBIT", some "", some "", "", some "", some "", Option.none⟩
      (some "40") 40 (by decide) (by decide) (by decide)).1 rfl).1

/-- C9: the debit test is an exact string comparison with `DBIT` — in all
four extraction sites (balances and transactions of both parser variants),
any credit/debit indicator other than exactly `DBIT` (for example `CRDT`,
lowercase `dbit`, or whitespace-padded variants) leaves the stored amount
equal to the raw parsed magnitude. -/
theorem exactDbitC9 :
    (∀ bal code b a q cd,
        Camt053Parser.parse_balance_entry bal = .ok (code, b) →
        headText (descPath bal ["Amt"]) = .ok a → pyFloat a = .ok q →
        headText (descPath bal ["CdtDbtInd"]) = .ok cd →
        cd ≠ some "DBIT" → b.Amount = q) ∧
    (∀ entry t a q,
        Camt053Parser.parse_transaction entry = .ok t →
        headText (childPath entry ["Amt"]) = .ok a → pyFloat a = .ok q →
        t.CreditDebit ≠ some "DBIT" → t.Amount = q) ∧
    (∀ bal b a q,
        CamtParser.parse_balance bal = .ok b →
        headText (descPath bal ["Amt"]) = .ok a → pyFloat a = .ok q →
        b.DrCr ≠ some "DBIT" → b.Amount = q) ∧
    (∀ entry t a q,
        CamtParser.parse_transaction entry = .ok t →
        headText (childPath entry ["Amt"]) = .ok a → pyFloat a = .ok q →
        t.DrCr ≠ some "DBIT" → t.Amount = q) := by
  refine ⟨?_, ?_, ?_, ?_⟩
  · intro bal code b a q cd hok ha hq hcd hne
    obtain ⟨-, a', q', cd', ha', hq', hcd', hb⟩ := Camt053Parser.parse_balance_entry_ok hok
    rw [ha] at ha'; simp only [Except.ok.injEq] at ha'; subst ha'
    rw [hq] at hq'; simp only [Except.ok.injEq] at hq'; subst hq'
    rw [hcd] at hcd'; simp only [Except.ok.injEq] at hcd'; subst hcd'
    rw [hb]
    exact ((sign_flip_cases cd q).2 hne).1
  · intro entry t a q hok ha hq hne
    obtain ⟨a', q', ccy, cd, ref, ha', hq', -, -, -, ht⟩ := Camt053Parser.parse_transaction_ok hok
    rw [ha] at ha'; simp only [Except.ok.injEq] at ha'; subst ha'
    rw [hq] at hq'; simp only [Except.ok.injEq] at hq'; subst hq'
    rw [ht] at hne ⊢
    exact ((sign_flip_cases cd q).2 hne).1
  · intro bal b a q hok ha hq hne
    obtain ⟨code, a', q', cd, ccy, dt, -, ha', hq', -, -, -, hb⟩ := CamtParser.parse_balance_ok hok
    rw [ha] at ha'; simp only [Except.ok.injEq] at ha'; subst ha'
    rw [hq] at hq'; simp only [Except.ok.injEq] at hq'; subst hq'
    rw [hb] at hne ⊢
    exact ((sign_flip_cases cd q).2 hne).1
  · intro entry t a q hok ha hq hne
    obtain ⟨a', q', ccy, cd, ha', hq', -, -, ht⟩ := CamtParser.camt_transaction_ok hok
    rw [ha] at ha'; simp only [Except.ok.injEq] at ha'; subst ha'
    rw [hq] at hq'; simp only [Except.ok.injEq] at hq'; subst hq'
    rw [ht] at hne ⊢
    exact ((sign_flip_cases cd q).2 hne).1

theorem exactDbitC9_witness :
    ((Camt053Parser.Balance.mk 25 "Unknown code").Amount = (25 : ℚ)) ∧
    ((Camt053Parser.Txn.mk (some "") (some "") (some "") (some "") 75 "EUR" (some "dbit") ""
        Option.none Option.none Option.none).Amount = (75 : ℚ)) ∧
    ((CamtParser.CBal.mk 25 "EUR" (some "XXXX") "Unknown code" (some "CRDT")
        (some "2023-01-31") Option.none).Amount = (25 : ℚ)) ∧
    ((CamtParser.CTxn.mk 75 "EUR" (some "dbit") (some "") (some "") "" (some "") (some "")
        Option.none).Amount = (75 : ℚ)) := by
  refine ⟨?_, ?_, ?_, ?_⟩
  · exact exactDbitC9.1 balUnknown (some "XXXX") ⟨25, "Unknown code"⟩
      (some "25") 25 (some "CRDT") (by decide) (by decide) (by decide) (by decide) (by decide)
  · exact exactDbitC9.2.1 ntryLower
      ⟨some "", some "", some "", some "", 75, "EUR", some "dbit", "",
        Option.none, Option.none, Option.none⟩
      (some "75") 75 (by decide) (by decide) (by decide) (by decide)
  · exact exactDbitC9.2.2.1 balUnknown
      ⟨25, "EUR", some "XXXX", "Unknown code", some "CRDT", some "2023-01-31", Option.none⟩
      (some "25") 25 (by decide) (by decide) (by decide) (by decide)
  · exact exactDbitC9.2.2.2 ntryLower
      ⟨75, "EUR", some "dbit", some "", some "", "", some "", some "", Option.none⟩
      (some "75") 75 (by decide) (by decide) (by decide) (by decide)

/-- C7: the balance-type-code lookup of `Camt053Parser.DEFINITIONS` maps
OPBD, CLBD and CLAV to their documented descriptions, the extended
`CamtParser.definitions` table additionally carries PRCD and FWAV, and any
code absent from a table resolves to the description `Unknown code` in the
parsed Balance rather than failing. -/
theorem balanceCodesC7 :
    defsGet Camt053Parser.DEFINITIONS (some "OPBD") = "Opening booked balance" ∧
    defsGet Camt053Parser.DEFINITIONS (some "CLBD") = "Closing booked balance" ∧
    defsGet Camt053Parser.DEFINITIONS (some "CLAV") = "Closing available balance" ∧
    (CamtParser.definitions.find? (fun kv => kv.1 == "PRCD")).isSome = true ∧
    (CamtParser.definitions.find? (fun kv => kv.1 == "FWAV")).isSome = true ∧
    (∀ c, Camt053Parser.DEFINITIONS.find? (fun kv => kv.1 == c) = Option.none →
        defsGet Camt053Parser.DEFINITIONS (some c) = "Unknown code") ∧
    (∀ c, CamtParser.definitions.find? (fun kv => kv.1 == c) = Option.none →
        defsGet CamtParser.definitions (some c) = "Unknown code") ∧
    (∀ bal code b, Camt053Parser.parse_balance_entry bal = .ok (code, b) →
        b.Description = defsGet Camt053Parser.DEFINITIONS code) ∧
    (∀ bal b, CamtParser.parse_balance bal = .ok b →
        b.Description = defsGet CamtParser.definitions b.Code) := by
  refine ⟨rfl, rfl, rfl, rfl, rfl, ?_, ?_, ?_, ?_⟩
  · intro c h
    simp [defsGet, h]
  · intro c h
    simp [defsGet, h]
  · intro bal code b hok
    obtain ⟨-, a, q, cd, -, -, -, hb⟩ := Camt053Parser.parse_balance_entry_ok hok
    rw [hb]
  · intro bal b hok
    obtain ⟨code, a, q, cd, ccy, dt, -, -, -, -, -, -, hb⟩ := CamtParser.parse_balance_ok hok
    rw [hb]

theorem balanceCodesC7_witness :
    defsGet Camt053Parser.DEFINITIONS (some "XXXX") = "Unknown code" ∧
    defsGet CamtParser.definitions (some "XXXX") = "Unknown code" ∧
    (Camt053Parser.Balance.mk 25 "Unknown code").Description =
      defsGet Camt053Parser.DEFINITIONS (some "XXXX") ∧
    (CamtParser.CBal.mk 25 "EUR" (some "XXXX") "Unknown code" (some "CRDT")
        (some "2023-01-31") Option.none).Description =
      defsGet CamtParser.definitions
        (CamtParser.CBal.mk 25 "EUR" (some "XXXX") "Unknown code" (some "CRDT")
          (some "2023-01-31") Option.none).Code := by
  refine ⟨?_, ?_, ?_, ?_⟩
  · exact balanceCodesC7.2.2.2.2.2.1 "XXXX" rfl
  · exact balanceCodesC7.2.2.2.2.2.2.1 "XXXX" rfl
  · exact balanceCodesC7.2.2.2.2.2.2.2.1 balUnknown (some "XXXX") ⟨25, "Unknown code"⟩ (by decide)
  · exact balanceCodesC7.2.2.2.2.2.2.2.2 balUnknown
      ⟨25, "EUR", some "XXXX", "Unknown code", some "CRDT", some "2023-01-31", Option.none⟩
      (by decide)

/-- A payment whose first `InstdAmt` text is non-numeric never parses. -/
theorem parse_payment_bad_amount {p e : Elem} {rest : List Elem} {s : String}
    (hpath : descPath p ["InstdAmt"] = e :: rest) (htext : e.text = some s)
    (hbad : pyFloatString s = Option.none) :
    ∀ pd, Pain001Parser.parse_payment p ≠ .ok pd := by
  intro pd hok
  obtain ⟨a, ccy, nm, ref, addr, q, ha, -, -, -, -, hq, -⟩ := Pain001Parser.parse_payment_ok hok
  rw [hpath, headText] at ha
  simp only [Except.ok.injEq] at ha
  subst ha
  rw [htext] at hq
  rw [pyFloat] at hq
  simp [hbad] at hq

/-- C5: a Pain.001 transaction whose `InstdAmt` text is not parseable as a
decimal makes the payment parse fail, and makes the whole document
extraction fail — it is never coerced to a default.  (Python raises
`ValueError` here, the failure the specification's error taxonomy files
under FormatError as non-numeric text in a numeric field.) -/
theorem nonNumericAmountC5 :
    (∀ (p e : Elem) (rest : List Elem) (s : String),
        descPath p ["InstdAmt"] = e :: rest → e.text = some s →
        pyFloatString s = Option.none →
        ∀ pd, Pain001Parser.parse_payment p ≠ .ok pd) ∧
    (∀ tree : Elem,
        (∃ b ∈ descPath tree ["PmtInf"], ∃ p ∈ descPath b ["CdtTrfTxInf"],
          ∃ (e : Elem) (rest : List Elem) (s : String),
            descPath p ["InstdAmt"] = e :: rest ∧ e.text = some s ∧
            pyFloatString s = Option.none) →
        ∀ st, Pain001Parser.parse tree ≠ .ok st) := by
  refine ⟨fun p e rest s h1 h2 h3 => parse_payment_bad_amount h1 h2 h3, ?_⟩
  intro tree hex st hok
  obtain ⟨b, hb, p, hp, e, rest, s, h1, h2, h3⟩ := hex
  rw [Pain001Parser.parse] at hok
  simp only [except_bind_ok, Except.ok.injEq] at hok
  obtain ⟨pss, hpss, -⟩ := hok
  obtain ⟨ps, hps⟩ := mapE_ok_of_mem hpss hb
  rw [Pain001Parser.parse_batch] at hps
  simp only [except_bind_ok, Except.ok.injEq] at hps
  obtain ⟨hdr, -, pds, hpds, -⟩ := hps
  obtain ⟨pd, hpd⟩ := mapE_ok_of_mem hpds hp
  exact parse_payment_bad_amount h1 h2 h3 pd hpd

theorem nonNumericAmountC5_witness :
    Pain001Parser.parse badAmtDoc ≠ .ok ⟨1, [], 1⟩ ∧
    Pain001Parser.parse badAmtDoc = .error .valueError := by
  constructor
  · exact nonNumericAmountC5.2 badAmtDoc
      ⟨batchE [payE "12x" "EUR" "Zed" []], List.Mem.head _,
       payE "12x" "EUR" "Zed" [], List.Mem.head _,
       .mk "InstdAmt" [("Ccy", "EUR")] (some "12x") [], [], "12x", rfl, rfl, rfl⟩
      ⟨1, [], 1⟩
  · decide

/-- C8 counterexample: a Pain.001 payment containing an empty `Ustrd`
element (text `None`) makes extraction fail with a `TypeError` — the
Pain.001 remittance join does not skip null texts. -/
theorem joinTextsC8_counterexample :
    Pain001Parser.parse_payment emptyUstrdPay = .error .typeError := by decide

/-- C8 amended: zero matched remittance elements yield the empty string
(not an error) in both variants, and the `CamtParser` join skips falsy
texts; but the Pain.001 remittance join fails with a `TypeError` whenever
any matched `Ustrd` text is null, instead of skipping it. -/
theorem joinTextsC8 :
    (∀ p pd, Pain001Parser.parse_payment p = .ok pd →
        descPath p ["RmtInf", "Ustrd"] = [] → pyGet pd "Reference" = some (.str "")) ∧
    (∀ p, ((descPath p ["RmtInf", "Ustrd"]).map Elem.text).all Option.isSome = false →
        ∀ pd, Pain001Parser.parse_payment p ≠ .ok pd) ∧
    (∀ entry t, CamtParser.parse_transaction entry = .ok t →
        t.Reference = String.join ((((descPath entry ["Ustrd"]).map Elem.text).filter
          truthyText).map (fun x => x.getD ""))) ∧
    (∀ entry t, CamtParser.parse_transaction entry = .ok t →
        descPath entry ["Ustrd"] = [] → t.Reference = "") := by
  refine ⟨?_, ?_, ?_, ?_⟩
  · intro p pd hok hempty
    obtain ⟨a, ccy, nm, ref, addr, q, -, -, -, href, -, -, hd⟩ := Pain001Parser.parse_payment_ok hok
    rw [hempty] at href
    simp only [List.map_nil, joinTexts, List.all_nil, if_true, Except.ok.injEq] at href
    rw [hd, ← href]
    rfl
  · intro p hall pd hok
    obtain ⟨a, ccy, nm, ref, addr, q, -, -, -, href, -, -, -⟩ := Pain001Parser.parse_payment_ok hok
    rw [joinTexts, hall] at href
    simp at href
  · intro entry t hok
    obtain ⟨a, q, ccy, cd, -, -, -, -, ht⟩ := CamtParser.camt_transaction_ok hok
    rw [ht]
  · intro entry t hok hempty
    obtain ⟨a, q, ccy, cd, -, -, -, -, ht⟩ := CamtParser.camt_transaction_ok hok
    rw [ht, hempty]
    rfl

theorem joinTextsC8_witness :
    pyGet [("Name", Val.str "Alice"), ("Amount", Val.num 150), ("Currency", Val.str "EUR"),
        ("Reference", Val.str ""), ("CreditorAccount", Val.str ""), ("Country", Val.str ""),
        ("Address", Val.str "")] "Reference" = some (Val.str "") ∧
    Pain001Parser.parse_payment emptyUstrdPay ≠ .ok [] ∧
    (CamtParser.CTxn.mk (-40) "EUR" (some "DBIT") (some "") (some "") "" (some "") (some "")
        Option.none).Reference = "" := by
  refine ⟨?_, ?_, ?_⟩
  · exact joinTextsC8.1 (payE "150" "EUR" "Alice" [])
      [("Name", Val.str "Alice"), ("Amount", Val.num 150), ("Currency", Val.str "EUR"),
       ("Reference", Val.str ""), ("CreditorAccount", Val.str ""), ("Country", Val.str ""),
       ("Address", Val.str "")] (by decide) rfl
  · exact joinTextsC8.2.1 emptyUstrdPay (by decide) []
  · exact joinTextsC8.2.2.2 ntryDbit
      ⟨-40, "EUR", some "DBIT", some "", some "", "", some "", some "", Option.none⟩
      (by decide) rfl

/-- C6 counterexample: a `CamtParser` entry with no `ValDt`/`BookgDt`
element parses to value/booking dates equal to the empty string — not a
null marker distinct from the empty string. -/
theorem optionalFieldsC6_counterexample :
    CamtParser.parse_transaction ntryDbit =
      .ok ⟨-40, "EUR", some "DBIT", some "", some "", "", some "", some "", Option.none⟩ ∧
    (CamtParser.CTxn.mk (-40) "EUR" (some "DBIT") (some "") (some "") "" (some "") (some "")
      Option.none).ValDt ≠ Option.none := by
  refine ⟨by decide, by decide⟩

/-- C6 amended: CAMT.053 transaction extraction never raises on missing
optional fields — names and accounts absent from the entry resolve to the
empty string in both variants, absent value/booking dates resolve to
`None` in the `Camt053Parser` variant but to the empty string (not a
distinct null marker) in the `CamtParser` variant, and once the required
lookups succeed the whole transaction parse succeeds. -/
theorem optionalFieldsC6 :
    (∀ entry t, Camt053Parser.parse_transaction entry = .ok t →
        (descPath entry ["Dbtr", "Nm"] = [] → t.DebtorName = some "") ∧
        (descPath entry ["Cdtr", "Nm"] = [] → t.CreditorName = some "") ∧
        (descPath entry ["DbtrAcct", "Id", "IBAN"] = [] →
          descPath entry ["DbtrAcct", "Id", "Othr", "Id"] = [] → t.DebtorAccount = some "") ∧
        (descPath entry ["CdtrAcct", "Id", "IBAN"] = [] →
          descPath entry ["CdtrAcct", "Id", "Othr", "Id"] = [] → t.CreditorAccount = some "") ∧
        (childPath entry ["ValDt", "Dt"] = [] → t.ValueDate = Option.none) ∧
        (childPath entry ["BookgDt", "Dt"] = [] → t.BookingDate = Option.none)) ∧
    (∀ entry t, CamtParser.parse_transaction entry = .ok t →
        (descPath entry ["Dbtr", "Nm"] = [] → t.Debtor = some "") ∧
        (descPath entry ["Cdtr", "Nm"] = [] → t.Creditor = some "") ∧
        (childPath entry ["ValDt", "Dt"] = [] → t.ValDt = some "") ∧
        (childPath entry ["BookgDt", "Dt"] = [] → t.BookgDt = some "")) ∧
    (∀ entry a q ccy cd ref,
        headText (childPath entry ["Amt"]) = .ok a → pyFloat a = .ok q →
        listHead (attrVals (childPath entry ["Amt"]) "Ccy") = .ok ccy →
        headText (childPath entry ["CdtDbtInd"]) = .ok cd →
        joinTexts " " ((descPath entry ["RmtInf", "Ustrd"]).map Elem.text) = .ok ref →
        Camt053Parser.parse_transaction entry ≠ .error .indexError ∧
        Camt053Parser.parse_transaction entry ≠ .error .typeError) ∧
    (∀ entry a q ccy cd,
        headText (childPath entry ["Amt"]) = .ok a → pyFloat a = .ok q →
        listHead (attrVals (childPath entry ["Amt"]) "Ccy") = .ok ccy →
        headText (childPath entry ["CdtDbtInd"]) = .ok cd →
        CamtParser.parse_transaction entry ≠ .error .indexError ∧
        CamtParser.parse_transaction entry ≠ .error .typeError) := by
  refine ⟨?_, ?_, ?_, ?_⟩
  · intro entry t hok
    obtain ⟨a, q, ccy, cd, ref, -, -, -, -, -, ht⟩ := Camt053Parser.parse_transaction_ok hok
    subst ht
    refine ⟨fun h => by simp [textOrDefault, h], fun h => by simp [textOrDefault, h],
      fun h1 h2 => by simp [textOrDefault, h1, h2], fun h1 h2 => by simp [textOrDefault, h1, h2],
      fun h => by simp [textOrDefault, h], fun h => by simp [textOrDefault, h]⟩
  · intro entry t hok
    obtain ⟨a, q, ccy, cd, -, -, -, -, ht⟩ := CamtParser.camt_transaction_ok hok
    subst ht
    refine ⟨fun h => by simp [CamtParser.get_element_text, h],
      fun h => by simp [CamtParser.get_element_text, h],
      fun h => by simp [CamtParser.get_element_text, h],
      fun h => by simp [CamtParser.get_element_text, h]⟩
  · intro entry a q ccy cd ref ha hq hccy hcd href
    rw [Camt053Parser.parse_transaction_total ha hq hccy hcd href]
    exact ⟨by simp, by simp⟩
  · intro entry a q ccy cd ha hq hccy hcd
    rw [CamtParser.camt_transaction_total ha hq hccy hcd]
    exact ⟨by simp, by simp⟩

theorem optionalFieldsC6_witness :
    ((Camt053Parser.Txn.mk (some "") (some "") (some "") (some "") (-40) "EUR" (some "DBIT") ""
        Option.none Option.none Option.none).ValueDate = Option.none) ∧
    ((Camt053Parser.Txn.mk (some "") (some "") (some "") (some "") (-40) "EUR" (some "DBIT") ""
        Option.none Option.none Option.none).DebtorName = some "") ∧
    ((CamtParser.CTxn.mk (-40) "EUR" (some "DBIT") (some "") (some "") "" (some "") (some "")
        Option.none).ValDt = some "") ∧
    (Camt053Parser.parse_transaction ntryCrdt ≠ .error .indexError) ∧
    (CamtParser.parse_transaction ntryCrdt ≠ .error .indexError) := by
  have h1 := optionalFieldsC6.1 ntryDbit
    ⟨some "", some "", some "", some "", -40, "EUR", some "DBIT", "",
      Option.none, Option.none, Option.none⟩ (by decide)
  have h2 := optionalFieldsC6.2.1 ntryDbit
    ⟨-40, "EUR", some "DBIT", some "", some "", "", some "", some "", Option.none⟩ (by decide)
  have h3 := optionalFieldsC6.2.2.1 ntryCrdt (some "100") 100 "EUR" (some "CRDT") ""
    (by decide) (by decide) (by decide) (by decide) (by decide)
  have h4 := optionalFieldsC6.2.2.2 ntryCrdt (some "100") 100 "EUR" (some "CRDT")
    (by decide) (by decide) (by decide) (by decide)
  exact ⟨h1.2.2.2.2.1 rfl, h1.1 rfl, h2.2.2.1 rfl, h3.1, h4.1⟩

/-- C4 counterexample: on a document with zero `Stmt` elements, the
`CamtParser` extraction variant returns empty record sets successfully
instead of failing; only `Camt053Parser` raises `FileParserError`. -/
theorem noStatementsC4_counterexample :
    CamtParser.get_account_balances noStmtDoc = .ok [] ∧
    CamtParser.get_statement_stats noStmtDoc = .ok [] := by
  exact ⟨by decide, by decide⟩

/-- C4 amended: a document with zero `Stmt` elements makes the
`Camt053Parser` extraction fail with `FileParserError` (`No statements
found in the CAMT.053 file`) regardless of other content, while the
`CamtParser` variant's extractions return empty record sets without
error. -/
theorem noStatementsC4 :
    (∀ tree, descPath tree ["Stmt"] = [] →
        Camt053Parser.parse tree =
          .error (.fileParserError "No statements found in the CAMT.053 file")) ∧
    (∀ tree, descPath tree ["Stmt"] = [] →
        CamtParser.get_account_balances tree = .ok [] ∧
        CamtParser.get_statement_stats tree = .ok []) := by
  constructor
  · intro tree h
    simp [Camt053Parser.parse, h]
  · intro tree h
    constructor
    · simp [CamtParser.get_account_balances, h, mapE, ok_bind]
    · simp [CamtParser.get_statement_stats, h, mapE, ok_bind]

theorem noStatementsC4_witness :
    Camt053Parser.parse noStmtDoc =
      .error (.fileParserError "No statements found in the CAMT.053 file") ∧
    CamtParser.get_account_balances noStmtDoc = .ok [] := by
  exact ⟨noStatementsC4.1 noStmtDoc rfl, (noStatementsC4.2 noStmtDoc rfl).1⟩

/-- Reduction of a failed `Except` bind. -/
theorem error_bind {α β : Type} (e : PyErr) (f : α → Except PyErr β) :
    (Except.error e >>= f : Except PyErr β) = .error e := rfl

/-- Parsing the transactions of a singleton statement list is parsing that
statement's entries. -/
theorem parse_transactions_singleton {s : Elem} {ts : List Camt053Parser.Txn} :
    Camt053Parser.parse_transactions [s] = .ok ts ↔ Camt053Parser.parse_entries s = .ok ts := by
  cases h : Camt053Parser.parse_entries s with
  | error e => simp [Camt053Parser.parse_transactions, mapE, h, ok_bind, error_bind]
  | ok ys => simp [Camt053Parser.parse_transactions, mapE, h, ok_bind]

/-- A successful `parse_entries` run parses exactly the statement's own
`Ntry` children, tagging each with the statement's id. -/
theorem parse_entries_forall2 {s : Elem} {ts : List Camt053Parser.Txn}
    (h : Camt053Parser.parse_entries s = .ok ts) :
    List.Forall₂ (fun e t => ∃ t0 sid, Camt053Parser.parse_transaction e = .ok t0 ∧
        headText (childPath s ["Id"]) = .ok sid ∧ t = { t0 with StatementId := sid })
      (childPath s ["Ntry"]) ts := by
  refine (mapE_ok_forall2 h).imp ?_
  intro e t hrel
  simp only [except_bind_ok, Except.ok.injEq] at hrel
  obtain ⟨t0, ht0, sid, hsid, ht⟩ := hrel
  exact ⟨t0, sid, ht0, hsid, ht.symm⟩

/-- Successful entry parsing yields one record per `Ntry` child. -/
theorem parse_entries_length {s : Elem} {ts : List Camt053Parser.Txn}
    (h : Camt053Parser.parse_entries s = .ok ts) :
    ts.length = (childrenNamed s "Ntry").length := by
  have h2 := (parse_entries_forall2 h).length_eq.symm
  rwa [childPath_singleton] at h2

/-- Every record produced by `parse_entries` carries the statement's id. -/
theorem parse_entries_sid {s : Elem} {ts : List Camt053Parser.Txn} {sid : Option String}
    (h : Camt053Parser.parse_entries s = .ok ts)
    (hsid : headText (childPath s ["Id"]) = .ok sid) :
    ∀ t ∈ ts, t.StatementId = sid := by
  intro t ht
  obtain ⟨e, -, t0, sid', -, hsid', ht'⟩ := forall2_mem_right (parse_entries_forall2 h) ht
  rw [hsid] at hsid'
  simp only [Except.ok.injEq] at hsid'
  subst hsid'
  rw [ht']

/-- A successful `_get_transactions_for_statement` run parses exactly the
statement's own `Ntry` children. -/
theorem get_transactions_forall2 {s : Elem} {ts : List CamtParser.CTxn}
    (h : CamtParser.get_transactions_for_statement s = .ok ts) :
    List.Forall₂ (fun e t => CamtParser.parse_transaction e = .ok t)
      (childPath s ["Ntry"]) ts :=
  mapE_ok_forall2 h

/-- C3: the per-statement summary is computed from exactly that
statement's own `Ntry` children — in both variants the reported count
equals the number of the statement's entry children and the reported net
amount is the sum of the signed amounts parsed from those entries. -/
theorem perStatementSummaryC3 :
    (∀ stmt s, Camt053Parser.parse_statement_summary stmt = .ok s →
        ∃ ts, Camt053Parser.parse_entries stmt = .ok ts ∧
          s.NumTransactions = (childrenNamed stmt "Ntry").length ∧
          s.NumTransactions = ts.length ∧
          s.TotalAmount = (ts.map Camt053Parser.Txn.Amount).sum ∧
          List.Forall₂ (fun e t => ∃ t0, Camt053Parser.parse_transaction e = .ok t0 ∧
              Camt053Parser.Txn.Amount t = Camt053Parser.Txn.Amount t0)
            (childrenNamed stmt "Ntry") ts) ∧
    (∀ stmt r, CamtParser.parse_statement_stats stmt = .ok r →
        ∃ ts, CamtParser.get_transactions_for_statement stmt = .ok ts ∧
          r.NumTransactions = (childrenNamed stmt "Ntry").length ∧
          r.NetAmount = (ts.map CamtParser.CTxn.Amount).sum ∧
          List.Forall₂ (fun e t => CamtParser.parse_transaction e = .ok t)
            (childrenNamed stmt "Ntry") ts) := by
  constructor
  · intro stmt s hok
    rw [Camt053Parser.parse_statement_summary] at hok
    simp only [except_bind_ok, Except.ok.injEq] at hok
    obtain ⟨txns, htxns, hs⟩ := hok
    rw [parse_transactions_singleton] at htxns
    have hlen := parse_entries_length htxns
    refine ⟨txns, htxns, ?_, ?_, ?_, ?_⟩
    · rw [← hs, hlen]
    · rw [← hs]
    · rw [← hs]
    · rw [← childPath_singleton]
      refine (parse_entries_forall2 htxns).imp ?_
      intro e t hrel
      obtain ⟨t0, sid, ht0, -, ht⟩ := hrel
      exact ⟨t0, ht0, by rw [ht]⟩
  · intro stmt r hok
    rw [CamtParser.parse_statement_stats] at hok
    simp only [except_bind_ok, Except.ok.injEq] at hok
    obtain ⟨txns, htxns, hr⟩ := hok
    have h2 := get_transactions_forall2 htxns
    refine ⟨txns, htxns, ?_, ?_, ?_⟩
    · rw [← hr]
      have h3 := h2.length_eq.symm
      rwa [childPath_singleton] at h3
    · rw [← hr]
      rcases txns with - | ⟨t0, rest⟩
      · simp
      · simp
    · rw [← childPath_singleton]
      exact h2

theorem perStatementSummaryC3_witness :
    (Camt053Parser.Summary.mk 2 60).NumTransactions =
      (childrenNamed (stmtE "S9" "A9" [ntryCrdt, ntryDbit]) "Ntry").length ∧
    (CamtParser.CStats.mk (some "A9") (some "") 2 60).NumTransactions =
      (childrenNamed (stmtE "S9" "A9" [ntryCrdt, ntryDbit]) "Ntry").length := by
  constructor
  · obtain ⟨ts, -, h1, -, -, -⟩ := perStatementSummaryC3.1 (stmtE "S9" "A9" [ntryCrdt, ntryDbit])
      ⟨2, 60⟩ (by with_unfolding_all rfl)
    exact h1
  · obtain ⟨ts, -, h1, -, -⟩ := perStatementSummaryC3.2 (stmtE "S9" "A9" [ntryCrdt, ntryDbit])
      ⟨some "A9", some "", 2, 60⟩ (by with_unfolding_all rfl)
    exact h1

/-- Length of a flattened list of blocks whose lengths are given
pointwise by a function of the originating elements. -/
theorem flatten_length_sum {α β : Type} {f : α → Nat} :
    ∀ {xs : List α} {yss : List (List β)},
      List.Forall₂ (fun x ys => (ys : List β).length = f x) xs yss →
      yss.flatten.length = (xs.map f).sum := by
  intro xs yss h
  induction h with
  | nil => simp
  | cons h1 _ ih => simp [ih, h1]

/-- C2: Pain.001 extraction yields one batch record per `PmtInf` element
and one Payment per `CdtTrfTxInf` element (so `total_payments_count` is
the sum over batches), and every Payment is its transaction dict updated
with its own batch's header dict — the header fields (`debtor_name`,
`debtor_account`, `execution_date`) equal the batch header's values and no
transaction-level field is overwritten, the key sets being disjoint. -/
theorem pain001C2 :
    ∀ tree st, Pain001Parser.parse tree = .ok st →
      st.batches_count = (descPath tree ["PmtInf"]).length ∧
      st.total_payments_count =
        ((descPath tree ["PmtInf"]).map (fun b => (descPath b ["CdtTrfTxInf"]).length)).sum ∧
      ∃ pss, st.payments = pss.flatten ∧
        List.Forall₂ (fun b ps =>
            ps.length = (descPath b ["CdtTrfTxInf"]).length ∧
            ∃ hdr, Pain001Parser.parse_batch_header b = .ok hdr ∧
              List.Forall₂ (fun payel p =>
                  ∃ pd, Pain001Parser.parse_payment payel = .ok pd ∧
                    p = dictUpdate pd hdr ∧
                    pyGet p "debtor_name" = pyGet hdr "debtor_name" ∧
                    pyGet p "debtor_account" = pyGet hdr "debtor_account" ∧
                    pyGet p "execution_date" = pyGet hdr "execution_date" ∧
                    (∀ k, k ∈ ["Name", "Amount", "Currency", "Reference", "CreditorAccount",
                      "Country", "Address"] → pyGet p k = pyGet pd k))
                (descPath b ["CdtTrfTxInf"]) ps)
          (descPath tree ["PmtInf"]) pss := by
  intro tree st hok
  rw [Pain001Parser.parse] at hok
  simp only [except_bind_ok, Except.ok.injEq] at hok
  obtain ⟨pss, hpss, hst⟩ := hok
  have hMain : List.Forall₂ (fun b ps =>
      ps.length = (descPath b ["CdtTrfTxInf"]).length ∧
      ∃ hdr, Pain001Parser.parse_batch_header b = .ok hdr ∧
        List.Forall₂ (fun payel p =>
            ∃ pd, Pain001Parser.parse_payment payel = .ok pd ∧
              p = dictUpdate pd hdr ∧
              pyGet p "debtor_name" = pyGet hdr "debtor_name" ∧
              pyGet p "debtor_account" = pyGet hdr "debtor_account" ∧
              pyGet p "execution_date" = pyGet hdr "execution_date" ∧
              (∀ k, k ∈ ["Name", "Amount", "Currency", "Reference", "CreditorAccount",
                "Country", "Address"] → pyGet p k = pyGet pd k))
          (descPath b ["CdtTrfTxInf"]) ps)
      (descPath tree ["PmtInf"]) pss := by
    refine (mapE_ok_forall2 hpss).imp ?_
    intro b ps hb
    rw [Pain001Parser.parse_batch] at hb
    simp only [except_bind_ok, Except.ok.injEq] at hb
    obtain ⟨hdr, hhdr, pds, hpds, hps⟩ := hb
    obtain ⟨ed, dn, -, -, hdr'⟩ := Pain001Parser.parse_batch_header_ok hhdr
    subst hdr'
    have h3 := mapE_ok_forall2 hpds
    constructor
    · rw [← hps, List.length_map]
      exact h3.length_eq.symm
    refine ⟨_, hhdr, ?_⟩
    rw [← hps]
    rw [List.forall₂_map_right_iff]
    refine h3.imp ?_
    intro payel pd hpd
    obtain ⟨a, ccy, nm, ref, addr, q, -, -, -, -, -, -, hpd'⟩ := Pain001Parser.parse_payment_ok hpd
    subst hpd'
    refine ⟨_, hpd, rfl, rfl, rfl, rfl, ?_⟩
    intro k hk
    fin_cases hk <;> rfl
  refine ⟨?_, ?_, pss, ?_, hMain⟩
  · rw [← hst]
  · rw [← hst]
    exact flatten_length_sum (hMain.imp (fun b ps h => h.1))
  · rw [← hst]

theorem pain001C2_witness :
    (Pain001State.mk 1
      [[("Name", Val.str "Alice"), ("Amount", Val.num 150), ("Currency", Val.str "EUR"),
        ("Reference", Val.str ""), ("CreditorAccount", Val.str ""), ("Country", Val.str ""),
        ("Address", Val.str ""), ("debtor_name", Val.str "ACME"),
        ("debtor_account", Val.str "DE99"), ("execution_date", Val.str "2023-03-03")],
       [("Name", Val.str "Bob"), ("Amount", Val.num 200), ("Currency", Val.str "EUR"),
        ("Reference", Val.str ""), ("CreditorAccount", Val.str ""), ("Country", Val.str ""),
        ("Address", Val.str ""), ("debtor_name", Val.str "ACME"),
        ("debtor_account", Val.str "DE99"), ("execution_date", Val.str "2023-03-03")]]
      2).batches_count = (descPath painDoc ["PmtInf"]).length ∧
    (Pain001State.mk 1
      [[("Name", Val.str "Alice"), ("Amount", Val.num 150), ("Currency", Val.str "EUR"),
        ("Reference", Val.str ""), ("CreditorAccount", Val.str ""), ("Country", Val.str ""),
        ("Address", Val.str ""), ("debtor_name", Val.str "ACME"),
        ("debtor_account", Val.str "DE99"), ("execution_date", Val.str "2023-03-03")],
       [("Name", Val.str "Bob"), ("Amount", Val.num 200), ("Currency", Val.str "EUR"),
        ("Reference", Val.str ""), ("CreditorAccount", Val.str ""), ("Country", Val.str ""),
        ("Address", Val.str ""), ("debtor_name", Val.str "ACME"),
        ("debtor_account", Val.str "DE99"), ("execution_date", Val.str "2023-03-03")]]
      2).total_payments_count =
      ((descPath painDoc ["PmtInf"]).map (fun b => (descPath b ["CdtTrfTxInf"]).length)).sum := by
  have h := pain001C2 painDoc
    ⟨1,
     [[("Name", Val.str "Alice"), ("Amount", Val.num 150), ("Currency", Val.str "EUR"),
       ("Reference", Val.str ""), ("CreditorAccount", Val.str ""), ("Country", Val.str ""),
       ("Address", Val.str ""), ("debtor_name", Val.str "ACME"),
       ("debtor_account", Val.str "DE99"), ("execution_date", Val.str "2023-03-03")],
      [("Name", Val.str "Bob"), ("Amount", Val.num 200), ("Currency", Val.str "EUR"),
       ("Reference", Val.str ""), ("CreditorAccount", Val.str ""), ("Country", Val.str ""),
       ("Address", Val.str ""), ("debtor_name", Val.str "ACME"),
       ("debtor_account", Val.str "DE99"), ("execution_date", Val.str "2023-03-03")]],
     2⟩ (by decide)
  exact ⟨h.1, h.2.1⟩

/-- A successfully parsed statement record's summary fields come from its
own entry list, and its `StatementId` is the id every one of those entries
carries. -/
theorem parse_statement_block {s : Elem} {rec : Camt053Parser.StmtRec}
    (h : Camt053Parser.parse_statement s = .ok rec) :
    ∃ ts, Camt053Parser.parse_entries s = .ok ts ∧
      rec.NumTransactions = ts.length ∧
      rec.TotalAmount = (ts.map Camt053Parser.Txn.Amount).sum ∧
      ∀ t ∈ ts, t.StatementId = rec.StatementId := by
  rw [Camt053Parser.parse_statement] at h
  simp only [except_bind_ok, Except.ok.injEq] at h
  obtain ⟨hd, hhd, bals, hbals, summ, hsumm, hrec⟩ := h
  obtain ⟨aid, sid, -, hsid, hhd'⟩ := Camt053Parser.parse_statement_header_ok hhd
  rw [Camt053Parser.parse_statement_summary] at hsumm
  simp only [except_bind_ok, Except.ok.injEq] at hsumm
  obtain ⟨ts, hts, hs⟩ := hsumm
  rw [parse_transactions_singleton] at hts
  refine ⟨ts, hts, ?_, ?_, ?_⟩
  · rw [← hrec, ← hs]
  · rw [← hrec, ← hs]
  · intro t ht
    rw [parse_entries_sid hts hsid t ht, ← hrec, hhd']

/-- Filtering the flattened block list by one record's statement id
recovers exactly that record's own block, when statement ids are pairwise
distinct. -/
theorem filter_flatten_blocks :
    ∀ {recs : List Camt053Parser.StmtRec} {tss : List (List Camt053Parser.Txn)},
      List.Forall₂ (fun rec ts =>
        rec.NumTransactions = ts.length ∧
        rec.TotalAmount = (ts.map Camt053Parser.Txn.Amount).sum ∧
        ∀ t ∈ ts, Camt053Parser.Txn.StatementId t = rec.StatementId) recs tss →
      (recs.map Camt053Parser.StmtRec.StatementId).Pairwise (fun a b => a ≠ b) →
      ∀ rec ∈ recs,
        rec.NumTransactions =
          (tss.flatten.filter (fun t => t.StatementId == rec.StatementId)).length ∧
        rec.TotalAmount =
          ((tss.flatten.filter (fun t => t.StatementId == rec.StatementId)).map
            Camt053Parser.Txn.Amount).sum := by
  intro recs tss h
  induction h with
  | nil => intro _ rec hrec; cases hrec
  | @cons rec0 ts0 recs' tss' h1 h2 ih =>
      intro hpw rec hrec
      rw [List.map_cons, List.pairwise_cons] at hpw
      obtain ⟨hpw0, hpw'⟩ := hpw
      rw [List.flatten_cons, List.filter_append]
      cases hrec with
      | head =>
          have hts0 : ts0.filter (fun t => t.StatementId == rec0.StatementId) = ts0 := by
            rw [List.filter_eq_self]
            intro t ht
            simp [h1.2.2 t ht]
          have hrest : tss'.flatten.filter (fun t => t.StatementId == rec0.StatementId) = [] := by
            rw [List.filter_eq_nil_iff]
            intro t ht
            obtain ⟨ts', hts', htmem⟩ := List.mem_flatten.mp ht
            obtain ⟨rec', hrec', hrel'⟩ := forall2_mem_right h2 hts'
            have hid := hrel'.2.2 t htmem
            have hne : rec0.StatementId ≠ rec'.StatementId :=
              hpw0 _ (List.mem_map_of_mem _ hrec')
            simp only [hid, beq_iff_eq]
            exact fun hcontra => hne hcontra.symm
          rw [hts0, hrest, List.append_nil]
          exact ⟨h1.1, h1.2.1⟩
      | tail _ hrec' =>
          have hts0 : ts0.filter (fun t => t.StatementId == rec.StatementId) = [] := by
            rw [List.filter_eq_nil_iff]
            intro t ht
            have hid := h1.2.2 t ht
            have hne : rec0.StatementId ≠ rec.StatementId :=
              hpw0 _ (List.mem_map_of_mem _ hrec')
            simp only [hid, beq_iff_eq]
            exact fun hcontra => hne hcontra
          rw [hts0, List.nil_append]
          exact ih hpw' rec hrec'

/-- C10 counterexample: in a document whose two statements share the id
S1, each statement record reports `NumTransactions = 1`, while the global
transaction list filtered by that statement's id has 2 records — the
claimed filter-equivalence fails without distinct statement ids. -/
theorem refinementC10_counterexample :
    (Camt053Parser.parse dupIdDoc).toOption.map (fun st =>
        (st.statements.map (fun rec => (rec.StatementId, rec.NumTransactions)),
         (st.transactions.filter (fun t => t.StatementId == some "S1")).length)) =
      some ([(some "S1", 1), (some "S1", 1)], 2) ∧ (1 : Nat) ≠ 2 := by
  exact ⟨rfl, by decide⟩

/-- C10 amended: in a successfully extracted CAMT.053 document whose
statement ids are pairwise distinct, each statement record's
`NumTransactions` equals the number of records in the parser's global
transactions list carrying that statement's id, and its `TotalAmount`
equals the sum of those records' amounts — the per-statement summary
re-derivation agrees with filtering the global transaction extraction. -/
theorem refinementC10 :
    ∀ tree st, Camt053Parser.parse tree = .ok st →
      (st.statements.map Camt053Parser.StmtRec.StatementId).Pairwise (fun a b => a ≠ b) →
      ∀ rec ∈ st.statements,
        rec.NumTransactions =
          (st.transactions.filter (fun t => t.StatementId == rec.StatementId)).length ∧
        rec.TotalAmount =
          ((st.transactions.filter (fun t => t.StatementId == rec.StatementId)).map
            Camt053Parser.Txn.Amount).sum := by
  intro tree st hok hpw
  rw [Camt053Parser.parse] at hok
  split at hok
  · cases hok
  · simp only [except_bind_ok, Except.ok.injEq] at hok
    obtain ⟨recs, hrecs, txns, htxns, hst⟩ := hok
    rw [Camt053Parser.parse_transactions] at htxns
    simp only [except_bind_ok, Except.ok.injEq] at htxns
    obtain ⟨tss, htss, hflat⟩ := htxns
    have hpair := forall2_pair (mapE_ok_forall2 hrecs) (mapE_ok_forall2 htss)
    have hblocks : List.Forall₂ (fun rec ts =>
        rec.NumTransactions = ts.length ∧
        rec.TotalAmount = (ts.map Camt053Parser.Txn.Amount).sum ∧
        ∀ t ∈ ts, Camt053Parser.Txn.StatementId t = rec.StatementId) recs tss := by
      refine hpair.imp ?_
      intro rec ts hrel
      obtain ⟨s, hrec, hts⟩ := hrel
      obtain ⟨ts', hts', hnum, htot, hsid⟩ := parse_statement_block hrec
      rw [hts] at hts'
      simp only [Except.ok.injEq] at hts'
      subst hts'
      exact ⟨hnum, htot, hsid⟩
    rw [← hst] at hpw ⊢
    rw [← hflat]
    exact filter_flatten_blocks hblocks hpw

theorem refinementC10_witness :
    (Camt053Parser.StmtRec.mk (some "S1") (some "A1") (some "") [] 1 100).NumTransactions =
      (([⟨some "", some "", some "", some "", 100, "EUR", some "CRDT", "",
           some "2023-01-01", Option.none, some "S1"⟩,
         ⟨some "", some "", some "", some "", -40, "EUR", some "DBIT", "",
           Option.none, Option.none, some "S2"⟩] : List Camt053Parser.Txn).filter
        (fun t => t.StatementId ==
          (Camt053Parser.StmtRec.mk (some "S1") (some "A1") (some "") [] 1 100).StatementId)).length ∧
    (Camt053Parser.StmtRec.mk (some "S1") (some "A1") (some "") [] 1 100).TotalAmount =
      ((([⟨some "", some "", some "", some "", 100, "EUR", some "CRDT", "",
           some "2023-01-01", Option.none, some "S1"⟩,
         ⟨some "", some "", some "", some "", -40, "EUR", some "DBIT", "",
           Option.none, Option.none, some "S2"⟩] : List Camt053Parser.Txn).filter
        (fun t => t.StatementId ==
          (Camt053Parser.StmtRec.mk (some "S1") (some "A1") (some "") [] 1 100).StatementId)).map
        Camt053Parser.Txn.Amount).sum := by
  exact refinementC10 twoIdDoc
    ⟨[⟨some "S1", some "A1", some "", [], 1, 100⟩, ⟨some "S2", some "A2", some "", [], 1, -40⟩],
     [⟨some "", some "", some "", some "", 100, "EUR", some "CRDT", "",
        some "2023-01-01", Option.none, some "S1"⟩,
      ⟨some "", some "", some "", some "", -40, "EUR", some "DBIT", "",
        Option.none, Option.none, some "S2"⟩]⟩
    (by with_unfolding_all rfl) (by decide)
    ⟨some "S1", some "A1", some "", [], 1, 100⟩ (List.Mem.head _)
